import Mathlib

/-!
# Verification of the gomultistripe versioned Stripe handler layer

Shallow embedding of the version-agnostic data model, the handler
registry, the v74 webhook normalizers (the synchronous-return variant
`HandlerV74.HandleWebhook` and the queue variant
`CallbackHandlerV74.HandleWebhook`), the subscription response
projections, and the payment-method list-parameter construction.

Conventions of the embedding:
* Go `map[string]string` values are embedded as association lists
  `List (String × String)` with unique keys; a Go map read with its
  zero-value default is `goGetD`, a map store is `goSet` (overwrite in
  place or append).
* `time.Time` values produced by `time.Unix(s, 0)` are embedded as the
  integer second count `s`.
* `webhook.ConstructEvent` (vendor signature verification + event
  parse) is external vendor code; its outcome is passed to the embedded
  handler as an `Except String StripeEvent` value.
* `json.Unmarshal(event.Data.Raw, &x)` is deterministic in the raw
  bytes, so the raw nested payload is embedded as the tuple of all five
  possible unmarshal outcomes (`StripeEventData`), one per target shape;
  each branch of the handler consumes the outcome for its own shape.
-/

set_option maxHeartbeats 1000000

/-- Go map read `m[k]` returning `Option`. -/
def goGet (m : List (String × String)) (k : String) : Option String :=
  match m with
  | [] => none
  | (k', v) :: rest => if k' = k then some v else goGet rest k

/-- Go map read `m[k]` with the string zero value for a missing key. -/
def goGetD (m : List (String × String)) (k : String) : String :=
  (goGet m k).getD ""

/-- Go map store `m[k] = v`: overwrite the entry for `k` in place, or
append a fresh entry. -/
def goSet (m : List (String × String)) (k : String) (v : String) :
    List (String × String) :=
  match m with
  | [] => [(k, v)]
  | (k', v') :: rest =>
    if k' = k then (k, v) :: rest else (k', v') :: goSet rest k v

/-- The `for k, v := range src` copy loop into a freshly made empty map,
as written in every branch of `HandleWebhook`. -/
def goMapCopy (m : List (String × String)) : List (String × String) :=
  m.foldl (fun acc p => goSet acc p.1 p.2) []

/-- Keys of an embedded Go map. -/
def goKeys (m : List (String × String)) : List String :=
  m.map Prod.fst

/- Event kind constants from `handler.go` (`CallbackEventType` values). -/

def EventSetupIntentSucceeded : String := "setup_intent.succeeded"
def EventPaymentIntentCanceled : String := "payment_intent.canceled"
def EventPaymentIntentPaymentFailed : String := "payment_intent.payment_failed"
def EventPaymentIntentSucceeded : String := "payment_intent.succeeded"
def EventPaymentIntentAmountCapturableUpdated : String :=
  "payment_intent.amount_capturable_updated"
def EventCustomerSubscriptionCreated : String := "customer.subscription.created"
def EventCustomerSubscriptionUpdated : String := "customer.subscription.updated"
def EventCustomerSubscriptionDeleted : String := "customer.subscription.deleted"
def EventCustomerSubscriptionTrialWillEnd : String :=
  "customer.subscription.trial_will_end"
def EventCustomerSubscriptionPaused : String := "customer.subscription.paused"
def EventCustomerSubscriptionResumed : String := "customer.subscription.resumed"
def EventInvoicePaymentSucceeded : String := "invoice.payment_succeeded"
def EventInvoicePaymentFailed : String := "invoice.payment_failed"
def EventInvoiceCreated : String := "invoice.created"
def EventInvoiceUpcoming : String := "invoice.upcoming"

/-- Modelled from the spec: the refund event kind constants
(`EventRefundCreated`, `EventRefundUpdated`, `EventRefundFailed`,
`EventChargeRefunded`) are referenced by the refund branch of
`HandlerV74.HandleWebhook` but their declaration is not among the
provided files; §3 of the spec lists the refund callback family and
`check_events.go` ties them to the vendor event type strings. -/
def EventRefundCreated : String := "refund.created"

/-- Modelled from the spec: see `EventRefundCreated`. -/
def EventRefundUpdated : String := "refund.updated"

/-- Modelled from the spec: see `EventRefundCreated`. -/
def EventRefundFailed : String := "refund.failed"

/-- Modelled from the spec: see `EventRefundCreated`. -/
def EventChargeRefunded : String := "charge.refunded"

/-- The case arms of the setup-intent branch of `HandleWebhook`. -/
def setupIntentKinds : List String := [EventSetupIntentSucceeded]

/-- The case arms of the payment-intent branch of `HandleWebhook`. -/
def paymentIntentKinds : List String :=
  [EventPaymentIntentCanceled, EventPaymentIntentPaymentFailed,
   EventPaymentIntentSucceeded, EventPaymentIntentAmountCapturableUpdated]

/-- The case arms of the subscription branch of `HandleWebhook`. -/
def subscriptionKinds : List String :=
  [EventCustomerSubscriptionCreated, EventCustomerSubscriptionUpdated,
   EventCustomerSubscriptionDeleted, EventCustomerSubscriptionTrialWillEnd,
   EventCustomerSubscriptionPaused, EventCustomerSubscriptionResumed]

/-- The case arms of the invoice branch of `HandleWebhook`. -/
def invoiceKinds : List String :=
  [EventInvoicePaymentSucceeded, EventInvoicePaymentFailed,
   EventInvoiceCreated, EventInvoiceUpcoming]

/-- The case arms of the refund branch of `HandlerV74.HandleWebhook`
(present only in the synchronous-return variant). -/
def refundKinds : List String :=
  [EventRefundCreated, EventRefundUpdated, EventRefundFailed,
   EventChargeRefunded]

/-- All kinds handled by the synchronous-return variant
`HandlerV74.HandleWebhook`. -/
def knownKindsSync : List String :=
  setupIntentKinds ++ paymentIntentKinds ++ subscriptionKinds ++
    invoiceKinds ++ refundKinds

/-- All kinds handled by the queue variant
`CallbackHandlerV74.HandleWebhook` (no refund branch). -/
def knownKindsQueue : List String :=
  setupIntentKinds ++ paymentIntentKinds ++ subscriptionKinds ++ invoiceKinds

/-- `gomultistripe.InvoiceLine`. -/
structure InvoiceLine where
  id : String := ""
  amount : Int := 0
  currency : String := ""
  description : String := ""
  subscriptionID : String := ""
  deriving Repr, DecidableEq

/-- `gomultistripe.CallbackEvent`. Fields default to their Go zero
values, so a branch of the embedded handler mentions exactly the fields
the corresponding Go composite literal and assignments set. The fields
`createdAt` and the refund fields are assigned by
`HandlerV74.HandleWebhook` but missing from the provided snapshot of the
struct declaration; they are modelled from the spec (§3, Refund and
creation-time fields). -/
structure CallbackEvent where
  type : String := ""
  metadata : List (String × String) := []
  preAllocated : String := ""
  validateOnly : String := ""
  setupIntentID : String := ""
  paymentMethodID : String := ""
  cardBrand : String := ""
  cardExpMonth : Nat := 0
  cardExpYear : Nat := 0
  cardLast4 : String := ""
  paymentIntentID : String := ""
  amount : Int := 0
  amountCapturable : Int := 0
  status : String := ""
  lastPaymentErrorCode : String := ""
  lastPaymentErrorMsg : String := ""
  lastPaymentErrorDeclineCode : String := ""
  lastPaymentErrorPaymentMethodID : String := ""
  lastPaymentErrorChargeID : String := ""
  subscriptionID : String := ""
  customerID : String := ""
  currentPeriodEnd : Int := 0
  cancelAtPeriodEnd : Bool := false
  canceledAt : Int := 0
  created : Int := 0
  invoiceID : String := ""
  invoiceLines : List InvoiceLine := []
  refundID : String := ""
  refundAmount : Int := 0
  refundReason : String := ""
  refundStatus : String := ""
  chargeID : String := ""
  currency : String := ""
  createdAt : Int := 0
  deriving Repr, DecidableEq

/- Vendor (stripe-go v74) payload shapes, restricted to the fields the
handlers read. -/

/-- `stripe.Card` fields read by the handlers. -/
structure StripeCard where
  brand : String := ""
  last4 : String := ""
  expMonth : Nat := 0
  expYear : Nat := 0
  deriving Repr, DecidableEq

/-- `stripe.PaymentMethod` fields read by the handlers; `card` is a
pointer, hence `Option`. -/
structure StripePaymentMethod where
  id : String := ""
  card : Option StripeCard := none
  deriving Repr, DecidableEq

/-- `stripe.SetupIntent` fields read by the setup-intent branch. -/
structure StripeSetupIntent where
  id : String := ""
  metadata : List (String × String) := []
  paymentMethod : Option StripePaymentMethod := none
  deriving Repr, DecidableEq

/-- `stripe.Error` fields read from `intent.LastPaymentError`; `err`
embeds the nested `Err error` value by its `Error()` message. -/
structure StripeLastPaymentError where
  code : String := ""
  err : Option String := none
  declineCode : String := ""
  paymentMethod : Option StripePaymentMethod := none
  chargeID : String := ""
  deriving Repr, DecidableEq

/-- `stripe.PaymentIntent` fields read by the payment-intent branch. -/
structure StripePaymentIntent where
  id : String := ""
  metadata : List (String × String) := []
  amount : Int := 0
  amountCapturable : Int := 0
  status : String := ""
  paymentMethod : Option StripePaymentMethod := none
  lastPaymentError : Option StripeLastPaymentError := none
  deriving Repr, DecidableEq

/-- A referenced `stripe.Customer` (only its `ID` is read). -/
structure StripeCustomerRef where
  id : String := ""
  deriving Repr, DecidableEq

/-- A referenced `stripe.Price` (only its `ID` is read). -/
structure StripePriceRef where
  id : String := ""
  deriving Repr, DecidableEq

/-- One entry of `s.Items.Data`; `price` is a pointer, hence `Option`. -/
structure StripeSubscriptionItem where
  price : Option StripePriceRef := none
  deriving Repr, DecidableEq

/-- `stripe.Subscription` fields read by the handlers. The vendor
payload's own `CurrentPeriodEnd` field is carried to express which
source field the projections draw from. -/
structure StripeSubscription where
  id : String := ""
  customer : StripeCustomerRef := {}
  status : String := ""
  items : List StripeSubscriptionItem := []
  currentPeriodEnd : Int := 0
  cancelAt : Int := 0
  cancelAtPeriodEnd : Bool := false
  canceledAt : Int := 0
  created : Int := 0
  metadata : List (String × String) := []
  deriving Repr, DecidableEq

/-- One entry of `inv.Lines.Data` (stripe-go v74: `Subscription` is a
plain string ID). -/
structure StripeInvoiceLine where
  id : String := ""
  amount : Int := 0
  currency : String := ""
  description : String := ""
  subscription : String := ""
  deriving Repr, DecidableEq

/-- `inv.Lines` (a pointer to a list container, hence `Option` at the
use site). -/
structure StripeInvoiceLineList where
  data : List StripeInvoiceLine := []
  deriving Repr, DecidableEq

/-- `stripe.Invoice` fields read by the invoice branch. -/
structure StripeInvoice where
  id : String := ""
  customer : StripeCustomerRef := {}
  amountDue : Int := 0
  status : String := ""
  created : Int := 0
  metadata : List (String × String) := []
  lines : Option StripeInvoiceLineList := none
  deriving Repr, DecidableEq

/-- A referenced `stripe.Charge` (only its `ID` is read). -/
structure StripeChargeRef where
  id : String := ""
  deriving Repr, DecidableEq

/-- `stripe.Refund` fields read by the refund branch. -/
structure StripeRefund where
  id : String := ""
  amount : Int := 0
  reason : String := ""
  status : String := ""
  charge : StripeChargeRef := {}
  currency : String := ""
  created : Int := 0
  metadata : List (String × String) := []
  deriving Repr, DecidableEq

instance {ε α : Type} [DecidableEq ε] [DecidableEq α] :
    DecidableEq (Except ε α) := fun
  | .error a, .error b =>
    if h : a = b then isTrue (by subst h; rfl) else isFalse (by simp [h])
  | .error _, .ok _ => isFalse (by simp)
  | .ok _, .error _ => isFalse (by simp)
  | .ok a, .ok b =>
    if h : a = b then isTrue (by subst h; rfl) else isFalse (by simp [h])

/-- `event.Data.Raw`: the nested raw JSON object, embedded as the tuple
of the five possible `json.Unmarshal` outcomes (unmarshalling is a
deterministic function of the raw bytes). -/
structure StripeEventData where
  rawSetupIntent : Except String StripeSetupIntent := .error "no payload"
  rawPaymentIntent : Except String StripePaymentIntent := .error "no payload"
  rawSubscription : Except String StripeSubscription := .error "no payload"
  rawInvoice : Except String StripeInvoice := .error "no payload"
  rawRefund : Except String StripeRefund := .error "no payload"
  deriving Repr, DecidableEq

/-- `stripe.Event` fields read by the handlers. -/
structure StripeEvent where
  type : String := ""
  data : StripeEventData := {}
  deriving Repr, DecidableEq

/-- Failure classification of a `HandleWebhook` call (spec §7): the
vendor verification error, the `json.Unmarshal` error, or the
`unknown event type` error built at the end of the switch. -/
inductive WebhookError where
  | signatureFailure (msg : String)
  | decodeFailure (msg : String)
  | unknownEventType (kind : String)
  deriving Repr, DecidableEq

/-- The five local variables of the setup-intent branch (`pmID`,
`brand`, `last4`, `expMonth`, `expYear`), populated only when
`pm != nil && pm.Card != nil`. -/
structure SetupCardFields where
  pmID : String := ""
  brand : String := ""
  last4 : String := ""
  expMonth : Nat := 0
  expYear : Nat := 0
  deriving Repr, DecidableEq

/-- The `if pm != nil && pm.Card != nil` block of the setup-intent
branch. -/
def setupCardFields (pm : Option StripePaymentMethod) : SetupCardFields :=
  match pm with
  | some pm =>
    match pm.card with
    | some card =>
      { pmID := pm.id, brand := card.brand, last4 := card.last4,
        expMonth := card.expMonth, expYear := card.expYear }
    | none => {}
  | none => {}

/-- The body of the invoice-lines loop of `HandleWebhook`: build
`gmline` and set `SubscriptionID` when `line.Subscription` is
non-empty. -/
def invoiceLineFromStripe (line : StripeInvoiceLine) : InvoiceLine :=
  let gmline : InvoiceLine :=
    { id := line.id, amount := line.amount, currency := line.currency,
      description := line.description }
  if line.subscription ≠ "" then
    { gmline with subscriptionID := line.subscription }
  else gmline

/-- The setup-intent branch body shared verbatim by both variants:
produces the `CallbackEvent` for a decoded `stripe.SetupIntent`. -/
def setupIntentCallbackEvent (intent : StripeSetupIntent) : CallbackEvent :=
  let f := setupCardFields intent.paymentMethod
  { type := EventSetupIntentSucceeded
    metadata := goMapCopy intent.metadata
    setupIntentID := intent.id
    paymentMethodID := f.pmID
    cardBrand := f.brand
    cardExpMonth := f.expMonth
    cardExpYear := f.expYear
    cardLast4 := f.last4 }

/-- The payment-intent branch body shared verbatim by both variants:
produces the `CallbackEvent` for a decoded `stripe.PaymentIntent` under
event kind `kind`. -/
def paymentIntentCallbackEvent (kind : String)
    (intent : StripePaymentIntent) : CallbackEvent :=
  let preAllocated := goGetD intent.metadata "PreAllocated"
  let validateOnly := goGetD intent.metadata "ValidateOnly"
  let pmID := match intent.paymentMethod with
    | some pm => pm.id
    | none => ""
  let evt : CallbackEvent :=
    { type := kind
      metadata := goMapCopy intent.metadata
      preAllocated := preAllocated
      validateOnly := validateOnly
      paymentIntentID := intent.id
      amount := intent.amount
      status := intent.status
      paymentMethodID := pmID }
  let evt :=
    if kind = EventPaymentIntentAmountCapturableUpdated then
      { evt with amountCapturable := intent.amountCapturable }
    else evt
  if kind = EventPaymentIntentPaymentFailed then
    match intent.lastPaymentError with
    | some lpe =>
      { evt with
        lastPaymentErrorCode := lpe.code
        lastPaymentErrorMsg :=
          match lpe.err with
          | some msg => msg
          | none => ""
        lastPaymentErrorDeclineCode := lpe.declineCode
        lastPaymentErrorPaymentMethodID :=
          match lpe.paymentMethod with
          | some pm => pm.id
          | none => ""
        lastPaymentErrorChargeID := lpe.chargeID }
    | none => evt
  else evt

/-- The invoice-lines projection: `nil` lines contribute nothing, else
every entry of `inv.Lines.Data` is appended in order. -/
def invoiceLinesOf (inv : StripeInvoice) : List InvoiceLine :=
  match inv.lines with
  | some lines => lines.data.map invoiceLineFromStripe
  | none => []

/-- `HandlerV74.HandleWebhook` (synchronous-return variant; the v79
`HandlerV79.HandleWebhook` is the same function over the v79 vendor
types). Mirrors the Go signature `(*CallbackEvent, error)` as a pair of
options. The first argument is the outcome of the delegated
`webhook.ConstructEvent(payload, sigHeader, secret)`. -/
def HandleWebhookSyncV74 (constructResult : Except String StripeEvent) :
    Option CallbackEvent × Option WebhookError :=
  match constructResult with
  | .error msg => (none, some (WebhookError.signatureFailure msg))
  | .ok event =>
    if event.type ∈ setupIntentKinds then
      match event.data.rawSetupIntent with
      | .error msg => (none, some (WebhookError.decodeFailure msg))
      | .ok intent => (some (setupIntentCallbackEvent intent), none)
    else if event.type ∈ paymentIntentKinds then
      match event.data.rawPaymentIntent with
      | .error msg => (none, some (WebhookError.decodeFailure msg))
      | .ok intent =>
        (some (paymentIntentCallbackEvent event.type intent), none)
    else if event.type ∈ subscriptionKinds then
      match event.data.rawSubscription with
      | .error msg => (none, some (WebhookError.decodeFailure msg))
      | .ok sub =>
        (some { type := event.type
                metadata := goMapCopy sub.metadata
                subscriptionID := sub.id
                customerID := sub.customer.id
                status := sub.status
                currentPeriodEnd := sub.cancelAt
                cancelAtPeriodEnd := sub.cancelAtPeriodEnd
                canceledAt := sub.canceledAt
                createdAt := sub.created }, none)
    else if event.type ∈ invoiceKinds then
      match event.data.rawInvoice with
      | .error msg => (none, some (WebhookError.decodeFailure msg))
      | .ok inv =>
        (some { type := event.type
                metadata := goMapCopy inv.metadata
                invoiceID := inv.id
                customerID := inv.customer.id
                amount := inv.amountDue
                status := inv.status
                createdAt := inv.created
                invoiceLines := invoiceLinesOf inv }, none)
    else if event.type ∈ refundKinds then
      match event.data.rawRefund with
      | .error msg => (none, some (WebhookError.decodeFailure msg))
      | .ok refund =>
        (some { type := event.type
                metadata := goMapCopy refund.metadata
                refundID := refund.id
                refundAmount := refund.amount
                refundReason := refund.reason
                refundStatus := refund.status
                chargeID := refund.charge.id
                currency := refund.currency
                createdAt := refund.created }, none)
    else (none, some (WebhookError.unknownEventType event.type))

/-- `CallbackHandlerV74.HandleWebhook` (queue variant). Mirrors the Go
function as the list of events sent on `h.events` during the call
(each branch performs at most one send, as its last step) paired with
the returned error. The switch has no refund branch and no default
case: an unmatched kind sends nothing and returns `nil`. -/
def HandleWebhookQueueV74 (constructResult : Except String StripeEvent) :
    List CallbackEvent × Option WebhookError :=
  match constructResult with
  | .error msg => ([], some (WebhookError.signatureFailure msg))
  | .ok event =>
    if event.type ∈ setupIntentKinds then
      match event.data.rawSetupIntent with
      | .error msg => ([], some (WebhookError.decodeFailure msg))
      | .ok intent => ([setupIntentCallbackEvent intent], none)
    else if event.type ∈ paymentIntentKinds then
      match event.data.rawPaymentIntent with
      | .error msg => ([], some (WebhookError.decodeFailure msg))
      | .ok intent => ([paymentIntentCallbackEvent event.type intent], none)
    else if event.type ∈ subscriptionKinds then
      match event.data.rawSubscription with
      | .error msg => ([], some (WebhookError.decodeFailure msg))
      | .ok sub =>
        ([{ type := event.type
            metadata := goMapCopy sub.metadata
            subscriptionID := sub.id
            customerID := sub.customer.id
            status := sub.status
            currentPeriodEnd := sub.cancelAt
            cancelAtPeriodEnd := sub.cancelAtPeriodEnd
            canceledAt := sub.canceledAt
            created := sub.created }], none)
    else if event.type ∈ invoiceKinds then
      match event.data.rawInvoice with
      | .error msg => ([], some (WebhookError.decodeFailure msg))
      | .ok inv =>
        ([{ type := event.type
            metadata := goMapCopy inv.metadata
            invoiceID := inv.id
            customerID := inv.customer.id
            amount := inv.amountDue
            status := inv.status
            created := inv.created
            invoiceLines := invoiceLinesOf inv }], none)
    else ([], none)

/-- The metadata object of the nested payload an event of a known kind
decodes to, following the branch structure of `HandleWebhook`: the
selector used to state the metadata-projection property uniformly over
all kinds. -/
def decodedMetadata (event : StripeEvent) : Except String (List (String × String)) :=
  if event.type ∈ setupIntentKinds then
    event.data.rawSetupIntent.map StripeSetupIntent.metadata
  else if event.type ∈ paymentIntentKinds then
    event.data.rawPaymentIntent.map StripePaymentIntent.metadata
  else if event.type ∈ subscriptionKinds then
    event.data.rawSubscription.map StripeSubscription.metadata
  else if event.type ∈ invoiceKinds then
    event.data.rawInvoice.map StripeInvoice.metadata
  else if event.type ∈ refundKinds then
    event.data.rawRefund.map StripeRefund.metadata
  else .error "unknown kind"

/- Handler registry (`handler.go`): `registry`, `RegisterHandler`,
`GetHandler`. The process-wide map state is passed explicitly; a
registered adapter instance is embedded by its `Version()` string plus
an instance tag distinguishing distinct instances. -/

/-- An adapter instance as seen by the registry: its `Version()` and an
identity tag. -/
structure HandlerInstance where
  version : String
  tag : Nat
  deriving Repr, DecidableEq

/-- The registry map state; starts empty
(`registry = make(map[string]Handler)`). -/
def emptyRegistry : List (String × HandlerInstance) := []

/-- Go map store over registry entries (same semantics as `goSet`). -/
def registrySet (m : List (String × HandlerInstance)) (k : String)
    (v : HandlerInstance) : List (String × HandlerInstance) :=
  match m with
  | [] => [(k, v)]
  | (k', v') :: rest =>
    if k' = k then (k, v) :: rest else (k', v') :: registrySet rest k v

/-- Go map read over registry entries; `none` embeds the `nil` Go
returns for a missing key. -/
def registryGet (m : List (String × HandlerInstance)) (k : String) :
    Option HandlerInstance :=
  match m with
  | [] => none
  | (k', v) :: rest => if k' = k then some v else registryGet rest k

/-- `RegisterHandler(h)`: `registry[h.Version()] = h`. -/
def RegisterHandler (r : List (String × HandlerInstance))
    (h : HandlerInstance) : List (String × HandlerInstance) :=
  registrySet r h.version h

/-- `GetHandler(version)`: `registry[version]`, `nil` when absent. -/
def GetHandler (r : List (String × HandlerInstance)) (version : String) :
    Option HandlerInstance :=
  registryGet r version

/- Subscription response projections. Each embeds the
`&gomultistripe.Subscription{...}` return literal of one operation,
applied to the vendor `stripe.Subscription` the vendor call returned. -/

/-- `gomultistripe.Subscription` as populated by the v74/v76
subscription operations (`Metadata` and `CreatedAt` per their return
literals). -/
structure Subscription where
  id : String := ""
  customerID : String := ""
  status : String := ""
  priceID : String := ""
  currentPeriodEnd : Int := 0
  cancelAtPeriodEnd : Bool := false
  canceledAt : Int := 0
  createdAt : Int := 0
  metadata : List (String × String) := []
  deriving Repr, DecidableEq

/-- The shared `PriceID` closure: first item's price ID when present. -/
def subscriptionPriceID (s : StripeSubscription) : String :=
  match s.items with
  | item :: _ =>
    match item.price with
    | some price => price.id
    | none => ""
  | [] => ""

/-- The `&gomultistripe.Subscription{...}` return literal of
`HandlerV74.CreateSubscription`. -/
def createSubscriptionResultV74 (s : StripeSubscription) : Subscription :=
  { id := s.id
    customerID := s.customer.id
    status := s.status
    priceID := subscriptionPriceID s
    currentPeriodEnd := s.cancelAt
    cancelAtPeriodEnd := s.cancelAtPeriodEnd
    canceledAt := s.canceledAt
    createdAt := s.created
    metadata := s.metadata }

/-- The per-element return literal of `HandlerV74.ListSubscriptions`. -/
def listSubscriptionsResultV74 (s : StripeSubscription) : Subscription :=
  { id := s.id
    customerID := s.customer.id
    status := s.status
    priceID := subscriptionPriceID s
    currentPeriodEnd := s.cancelAt
    cancelAtPeriodEnd := s.cancelAtPeriodEnd
    canceledAt := s.canceledAt
    createdAt := s.created
    metadata := s.metadata }

/-- The `&gomultistripe.Subscription{...}` return literal of
`HandlerV74.UpdateSubscription`. -/
def updateSubscriptionResultV74 (s : StripeSubscription) : Subscription :=
  { id := s.id
    customerID := s.customer.id
    status := s.status
    priceID := subscriptionPriceID s
    currentPeriodEnd := s.cancelAt
    cancelAtPeriodEnd := s.cancelAtPeriodEnd
    canceledAt := s.canceledAt
    createdAt := s.created
    metadata := s.metadata }

/-- The `&gomultistripe.Subscription{...}` return literal of
`HandlerV74.CancelSubscription`. -/
def cancelSubscriptionResultV74 (s : StripeSubscription) : Subscription :=
  { id := s.id
    customerID := s.customer.id
    status := s.status
    priceID := subscriptionPriceID s
    currentPeriodEnd := s.cancelAt
    cancelAtPeriodEnd := s.cancelAtPeriodEnd
    canceledAt := s.canceledAt
    createdAt := s.created
    metadata := s.metadata }

/-- The `&gomultistripe.Subscription{...}` return literal of
`HandlerV76.CancelSubscription` (`v76/handler.go`). -/
def cancelSubscriptionResultV76 (s : StripeSubscription) : Subscription :=
  { id := s.id
    customerID := s.customer.id
    status := s.status
    priceID := subscriptionPriceID s
    currentPeriodEnd := s.cancelAt
    cancelAtPeriodEnd := s.cancelAtPeriodEnd
    canceledAt := s.canceledAt
    createdAt := s.created
    metadata := s.metadata }

/- Payment-method listing: the `stripe.PaymentMethodListParams`
composite literal each `GetPaymentMethods` builds before calling
`paymentmethod.List`. -/

/-- `stripe.PaymentMethodListParams` fields set by the handlers
(`stripe.String` pointers embedded by their values). -/
structure PaymentMethodListParams where
  customer : String
  type : String
  deriving Repr, DecidableEq

/-- The list-params literal of `HandlerV74.GetPaymentMethods`. -/
def getPaymentMethodsParamsV74 (customerID : String) :
    PaymentMethodListParams :=
  { customer := customerID, type := "card" }

/-- The list-params literal of `HandlerV76.GetPaymentMethods`. -/
def getPaymentMethodsParamsV76 (customerID : String) :
    PaymentMethodListParams :=
  { customer := customerID, type := "card" }

/-- The list-params literal of `HandlerV80.GetPaymentMethods`. -/
def getPaymentMethodsParamsV80 (customerID : String) :
    PaymentMethodListParams :=
  { customer := customerID, type := "card" }

/- Asynchronous delivery queue. `NewCallbackHandlerV74` creates
`make(chan gomultistripe.CallbackEvent, 100)`. Modelled from the spec:
Go buffered-channel semantics as a capacity-bounded FIFO state — a send
completes exactly when the buffer holds fewer than `cap` events (else
the sender blocks), a receive takes the oldest event, and nothing in
the handler ever closes the channel. -/

/-- State of the `events` channel: pending buffer, capacity, and
whether `close` has been called. -/
structure EventChan where
  buf : List CallbackEvent
  cap : Nat
  closed : Bool
  deriving Repr, DecidableEq

/-- The channel of a freshly constructed `CallbackHandlerV74`:
`make(chan gomultistripe.CallbackEvent, 100)`, never closed. -/
def newCallbackHandlerChan : EventChan :=
  { buf := [], cap := 100, closed := false }

/-- One send step: `some` of the new state when the send completes
without blocking, `none` when the sender would block (buffer full). -/
def chanSend (c : EventChan) (e : CallbackEvent) : Option EventChan :=
  if c.buf.length < c.cap then some { c with buf := c.buf ++ [e] }
  else none

/-- One receive step: the oldest buffered event and the new state,
`none` when the receiver would block (buffer empty). -/
def chanRecv (c : EventChan) : Option (CallbackEvent × EventChan) :=
  match c.buf with
  | [] => none
  | e :: rest => some (e, { c with buf := rest })

/-- Publish a sequence of events in order, failing if any send would
block. -/
def chanSendAll (c : EventChan) (es : List CallbackEvent) :
    Option EventChan :=
  match es with
  | [] => some c
  | e :: rest =>
    match chanSend c e with
    | some c' => chanSendAll c' rest
    | none => none

/- Family-exclusive field groups of `CallbackEvent`, following the
field grouping comments of the struct declaration in `handler.go`.
Fields assigned by more than one branch family (`PaymentMethodID`,
`Amount`, `Status`, `CustomerID`, `Created`, `CreatedAt`, `Metadata`)
belong to no group. -/

/-- The setup-intent family's exclusive fields are at their Go zero
values. -/
def setupFamilyZero (cb : CallbackEvent) : Prop :=
  cb.setupIntentID = "" ∧ cb.cardBrand = "" ∧ cb.cardExpMonth = 0 ∧
    cb.cardExpYear = 0 ∧ cb.cardLast4 = ""

/-- The payment-intent family's exclusive fields are at their Go zero
values. -/
def paymentFamilyZero (cb : CallbackEvent) : Prop :=
  cb.paymentIntentID = "" ∧ cb.amountCapturable = 0 ∧
    cb.preAllocated = "" ∧ cb.validateOnly = "" ∧
    cb.lastPaymentErrorCode = "" ∧ cb.lastPaymentErrorMsg = "" ∧
    cb.lastPaymentErrorDeclineCode = "" ∧
    cb.lastPaymentErrorPaymentMethodID = "" ∧
    cb.lastPaymentErrorChargeID = ""

/-- The subscription family's exclusive fields are at their Go zero
values. -/
def subscriptionFamilyZero (cb : CallbackEvent) : Prop :=
  cb.subscriptionID = "" ∧ cb.currentPeriodEnd = 0 ∧
    cb.cancelAtPeriodEnd = false ∧ cb.canceledAt = 0

/-- The invoice family's exclusive fields are at their Go zero
values. -/
def invoiceFamilyZero (cb : CallbackEvent) : Prop :=
  cb.invoiceID = "" ∧ cb.invoiceLines = []

/-- The refund family's exclusive fields are at their Go zero
values. -/
def refundFamilyZero (cb : CallbackEvent) : Prop :=
  cb.refundID = "" ∧ cb.refundAmount = 0 ∧ cb.refundReason = "" ∧
    cb.refundStatus = "" ∧ cb.chargeID = "" ∧ cb.currency = ""

/-- Family partition of a produced `CallbackEvent`: every family not
selected by the discriminant has all of its exclusive fields at their
zero values (the kind lists are pairwise disjoint, so the discriminant
selects at most one family). -/
def familyPartition (cb : CallbackEvent) : Prop :=
  (cb.type ∉ setupIntentKinds → setupFamilyZero cb) ∧
  (cb.type ∉ paymentIntentKinds → paymentFamilyZero cb) ∧
  (cb.type ∉ subscriptionKinds → subscriptionFamilyZero cb) ∧
  (cb.type ∉ invoiceKinds → invoiceFamilyZero cb) ∧
  (cb.type ∉ refundKinds → refundFamilyZero cb)

/- Concrete example payloads used to evaluate the embedded handlers on
closed inputs. -/

/-- A decoded subscription payload example. -/
def exSub : StripeSubscription :=
  { id := "sub_1", customer := { id := "cus_1" }, status := "active",
    currentPeriodEnd := 99, cancelAt := 7, cancelAtPeriodEnd := true,
    canceledAt := 5, created := 3, metadata := [("a", "1"), ("b", "2")] }

/-- A verified subscription-created event example. -/
def exSubEvent : StripeEvent :=
  { type := EventCustomerSubscriptionCreated,
    data := { rawSubscription := .ok exSub } }

/-- A decoded payment-failed payload example carrying no
`LastPaymentError` object. -/
def exFailedIntent : StripePaymentIntent :=
  { id := "pi_1", metadata := [("k", "v")], amount := 500,
    status := "requires_payment_method", lastPaymentError := none }

/-- A verified payment-failed event example with no nested error
object. -/
def exFailedEvent : StripeEvent :=
  { type := EventPaymentIntentPaymentFailed,
    data := { rawPaymentIntent := .ok exFailedIntent } }

/-- A decoded invoice payload example with two line items. -/
def exInvoice : StripeInvoice :=
  { id := "in_1", customer := { id := "cus_2" }, amountDue := 5,
    status := "open", created := 3, metadata := [("m", "w")],
    lines := some { data :=
      [{ id := "il_1", amount := 2, currency := "usd",
         description := "first", subscription := "sub_9" },
       { id := "il_2", amount := 3, currency := "usd",
         description := "second", subscription := "" }] } }

/-- A verified invoice-created event example. -/
def exInvoiceEvent : StripeEvent :=
  { type := EventInvoiceCreated, data := { rawInvoice := .ok exInvoice } }

/-- The `CallbackEvent` the synchronous variant produces for
`exSubEvent`. -/
def exSubCb : CallbackEvent :=
  { type := EventCustomerSubscriptionCreated,
    metadata := [("a", "1"), ("b", "2")],
    subscriptionID := "sub_1", customerID := "cus_1", status := "active",
    currentPeriodEnd := 7, cancelAtPeriodEnd := true, canceledAt := 5,
    createdAt := 3 }

/-- A verified event example of a kind unknown to both variants. -/
def exUnknownEvent : StripeEvent :=
  { type := "product.created" }

/-- A verified invoice event example whose nested object fails to
decode. -/
def exDecodeFailEvent : StripeEvent :=
  { type := EventInvoiceCreated,
    data := { rawInvoice := .error "bad json" } }

/-! ## Helper lemmas -/

theorem goSet_eq_append (k v : String) (m : List (String × String))
    (h : k ∉ goKeys m) : goSet m k v = m ++ [(k, v)] := by
  induction m with
  | nil => rfl
  | cons p rest ih =>
    obtain ⟨k', v'⟩ := p
    simp only [goKeys, List.map_cons, List.mem_cons, not_or] at h
    simp only [goSet, List.cons_append]
    rw [if_neg (fun hh => h.1 hh.symm)]
    rw [ih (by simpa [goKeys] using h.2)]

theorem foldl_goSet_append :
    ∀ (m acc : List (String × String)), (goKeys m).Nodup →
      (∀ x ∈ goKeys m, x ∉ goKeys acc) →
      m.foldl (fun a p => goSet a p.1 p.2) acc = acc ++ m := by
  intro m
  induction m with
  | nil => intro acc _ _; simp
  | cons p rest ih =>
    intro acc hnd hdisj
    obtain ⟨k, v⟩ := p
    simp only [List.foldl_cons]
    rw [goSet_eq_append k v acc (hdisj k (by simp [goKeys]))]
    rw [ih (acc ++ [(k, v)])]
    · simp
    · exact (List.nodup_cons.mp (by simpa [goKeys] using hnd)).2
    · intro x hx
      simp only [goKeys, List.map_append, List.map_cons, List.map_nil,
        List.mem_append, List.mem_cons, not_or, List.not_mem_nil,
        not_false_iff, and_true]
      have hk : k ∉ goKeys rest :=
        (List.nodup_cons.mp (by simpa [goKeys] using hnd)).1
      have hx' : x ∈ goKeys ((k, v) :: rest) := List.mem_cons_of_mem _ hx
      exact ⟨hdisj x hx', fun hxk => hk (hxk ▸ hx)⟩

theorem goMapCopy_eq_self (m : List (String × String))
    (h : (goKeys m).Nodup) : goMapCopy m = m := by
  unfold goMapCopy
  rw [foldl_goSet_append m [] h (by simp [goKeys])]
  simp

theorem handleSyncSubscription (e : StripeEvent)
    (ht : e.type ∈ subscriptionKinds) :
    HandleWebhookSyncV74 (.ok e) =
      match e.data.rawSubscription with
      | .error msg => (none, some (WebhookError.decodeFailure msg))
      | .ok sub =>
        (some { type := e.type
                metadata := goMapCopy sub.metadata
                subscriptionID := sub.id
                customerID := sub.customer.id
                status := sub.status
                currentPeriodEnd := sub.cancelAt
                cancelAtPeriodEnd := sub.cancelAtPeriodEnd
                canceledAt := sub.canceledAt
                createdAt := sub.created }, none) := by
  obtain ⟨t, d⟩ := e
  simp only [subscriptionKinds, List.mem_cons, List.not_mem_nil, or_false] at ht
  rcases ht with h|h|h|h|h|h <;> subst h <;> rfl

theorem handleSyncSetup (e : StripeEvent)
    (ht : e.type ∈ setupIntentKinds) :
    HandleWebhookSyncV74 (.ok e) =
      match e.data.rawSetupIntent with
      | .error msg => (none, some (WebhookError.decodeFailure msg))
      | .ok intent => (some (setupIntentCallbackEvent intent), none) := by
  obtain ⟨t, d⟩ := e
  simp only [setupIntentKinds, List.mem_cons, List.not_mem_nil, or_false] at ht
  subst ht
  rfl

theorem handleSyncPayment (e : StripeEvent)
    (ht : e.type ∈ paymentIntentKinds) :
    HandleWebhookSyncV74 (.ok e) =
      match e.data.rawPaymentIntent with
      | .error msg => (none, some (WebhookError.decodeFailure msg))
      | .ok intent =>
        (some (paymentIntentCallbackEvent e.type intent), none) := by
  obtain ⟨t, d⟩ := e
  simp only [paymentIntentKinds, List.mem_cons, List.not_mem_nil,
    or_false] at ht
  rcases ht with h|h|h|h <;> subst h <;> rfl

theorem handleSyncInvoice (e : StripeEvent)
    (ht : e.type ∈ invoiceKinds) :
    HandleWebhookSyncV74 (.ok e) =
      match e.data.rawInvoice with
      | .error msg => (none, some (WebhookError.decodeFailure msg))
      | .ok inv =>
        (some { type := e.type
                metadata := goMapCopy inv.metadata
                invoiceID := inv.id
                customerID := inv.customer.id
                amount := inv.amountDue
                status := inv.status
                createdAt := inv.created
                invoiceLines := invoiceLinesOf inv }, none) := by
  obtain ⟨t, d⟩ := e
  simp only [invoiceKinds, List.mem_cons, List.not_mem_nil, or_false] at ht
  rcases ht with h|h|h|h <;> subst h <;> rfl

theorem handleSyncRefund (e : StripeEvent)
    (ht : e.type ∈ refundKinds) :
    HandleWebhookSyncV74 (.ok e) =
      match e.data.rawRefund with
      | .error msg => (none, some (WebhookError.decodeFailure msg))
      | .ok refund =>
        (some { type := e.type
                metadata := goMapCopy refund.metadata
                refundID := refund.id
                refundAmount := refund.amount
                refundReason := refund.reason
                refundStatus := refund.status
                chargeID := refund.charge.id
                currency := refund.currency
                createdAt := refund.created }, none) := by
  obtain ⟨t, d⟩ := e
  simp only [refundKinds, List.mem_cons, List.not_mem_nil, or_false] at ht
  rcases ht with h|h|h|h <;> subst h <;> rfl

theorem handleSyncUnknown (e : StripeEvent)
    (ht : e.type ∉ knownKindsSync) :
    HandleWebhookSyncV74 (.ok e) =
      (none, some (WebhookError.unknownEventType e.type)) := by
  simp only [knownKindsSync, List.mem_append, not_or] at ht
  obtain ⟨⟨⟨⟨h1, h2⟩, h3⟩, h4⟩, h5⟩ := ht
  simp only [HandleWebhookSyncV74]
  rw [if_neg h1, if_neg h2, if_neg h3, if_neg h4, if_neg h5]

theorem handleQueueSetup (e : StripeEvent)
    (ht : e.type ∈ setupIntentKinds) :
    HandleWebhookQueueV74 (.ok e) =
      match e.data.rawSetupIntent with
      | .error msg => ([], some (WebhookError.decodeFailure msg))
      | .ok intent => ([setupIntentCallbackEvent intent], none) := by
  obtain ⟨t, d⟩ := e
  simp only [setupIntentKinds, List.mem_cons, List.not_mem_nil, or_false] at ht
  subst ht
  rfl

theorem handleQueuePayment (e : StripeEvent)
    (ht : e.type ∈ paymentIntentKinds) :
    HandleWebhookQueueV74 (.ok e) =
      match e.data.rawPaymentIntent with
      | .error msg => ([], some (WebhookError.decodeFailure msg))
      | .ok intent =>
        ([paymentIntentCallbackEvent e.type intent], none) := by
  obtain ⟨t, d⟩ := e
  simp only [paymentIntentKinds, List.mem_cons, List.not_mem_nil,
    or_false] at ht
  rcases ht with h|h|h|h <;> subst h <;> rfl

theorem handleQueueSubscription (e : StripeEvent)
    (ht : e.type ∈ subscriptionKinds) :
    HandleWebhookQueueV74 (.ok e) =
      match e.data.rawSubscription with
      | .error msg => ([], some (WebhookError.decodeFailure msg))
      | .ok sub =>
        ([{ type := e.type
            metadata := goMapCopy sub.metadata
            subscriptionID := sub.id
            customerID := sub.customer.id
            status := sub.status
            currentPeriodEnd := sub.cancelAt
            cancelAtPeriodEnd := sub.cancelAtPeriodEnd
            canceledAt := sub.canceledAt
            created := sub.created }], none) := by
  obtain ⟨t, d⟩ := e
  simp only [subscriptionKinds, List.mem_cons, List.not_mem_nil, or_false] at ht
  rcases ht with h|h|h|h|h|h <;> subst h <;> rfl

theorem handleQueueInvoice (e : StripeEvent)
    (ht : e.type ∈ invoiceKinds) :
    HandleWebhookQueueV74 (.ok e) =
      match e.data.rawInvoice with
      | .error msg => ([], some (WebhookError.decodeFailure msg))
      | .ok inv =>
        ([{ type := e.type
            metadata := goMapCopy inv.metadata
            invoiceID := inv.id
            customerID := inv.customer.id
            amount := inv.amountDue
            status := inv.status
            created := inv.created
            invoiceLines := invoiceLinesOf inv }], none) := by
  obtain ⟨t, d⟩ := e
  simp only [invoiceKinds, List.mem_cons, List.not_mem_nil, or_false] at ht
  rcases ht with h|h|h|h <;> subst h <;> rfl

theorem handleQueueUnknown (e : StripeEvent)
    (ht : e.type ∉ knownKindsQueue) :
    HandleWebhookQueueV74 (.ok e) = ([], none) := by
  simp only [knownKindsQueue, List.mem_append, not_or] at ht
  obtain ⟨⟨⟨h1, h2⟩, h3⟩, h4⟩ := ht
  simp only [HandleWebhookQueueV74]
  rw [if_neg h1, if_neg h2, if_neg h3, if_neg h4]

theorem setupIntentCE_type (intent : StripeSetupIntent) :
    (setupIntentCallbackEvent intent).type = EventSetupIntentSucceeded := by
  unfold setupIntentCallbackEvent
  rfl

theorem setupIntentCE_metadata (intent : StripeSetupIntent) :
    (setupIntentCallbackEvent intent).metadata = goMapCopy intent.metadata := by
  unfold setupIntentCallbackEvent
  rfl

theorem paymentIntentCE_type (kind : String) (intent : StripePaymentIntent) :
    (paymentIntentCallbackEvent kind intent).type = kind := by
  unfold paymentIntentCallbackEvent
  repeat' split
  all_goals rfl

theorem paymentIntentCE_metadata (kind : String)
    (intent : StripePaymentIntent) :
    (paymentIntentCallbackEvent kind intent).metadata =
      goMapCopy intent.metadata := by
  unfold paymentIntentCallbackEvent
  repeat' split
  all_goals rfl

theorem knownSync_setup {t : String} (h : t ∈ setupIntentKinds) :
    t ∈ knownKindsSync := by
  simp only [knownKindsSync, List.mem_append]
  exact Or.inl (Or.inl (Or.inl (Or.inl h)))

/-- C1: for every vendor event payload of a known kind that passes
signature verification and whose nested object decodes, `HandleWebhook`
produces a `CallbackEvent` whose `Type` equals the input event's kind
string and whose `Metadata` map contains exactly the key/value pairs of
the input payload's metadata object (order-independent, stated as
agreement of map lookups), in both the synchronous-return variant and
the queue variant. -/
theorem claim1_known_kind_projection (e : StripeEvent)
    (meta : List (String × String))
    (hk : e.type ∈ knownKindsSync)
    (hd : decodedMetadata e = .ok meta)
    (hnd : (goKeys meta).Nodup) :
    (∃ cb, HandleWebhookSyncV74 (.ok e) = (some cb, none) ∧
      cb.type = e.type ∧ ∀ k, goGet cb.metadata k = goGet meta k) ∧
    (e.type ∈ knownKindsQueue →
      ∃ cb, HandleWebhookQueueV74 (.ok e) = ([cb], none) ∧
        cb.type = e.type ∧ ∀ k, goGet cb.metadata k = goGet meta k) := by
  clear hk
  by_cases h1 : e.type ∈ setupIntentKinds
  · unfold decodedMetadata at hd
    rw [if_pos h1] at hd
    cases hraw : e.data.rawSetupIntent with
    | error msg => rw [hraw] at hd; simp [Except.map] at hd
    | ok intent =>
      rw [hraw] at hd
      simp only [Except.map] at hd
      have hmeta : intent.metadata = meta := by
        cases hd
        rfl
      have htype : e.type = EventSetupIntentSucceeded := by
        simpa [setupIntentKinds] using h1
      have hcb : (setupIntentCallbackEvent intent).type = e.type ∧
          ∀ k, goGet (setupIntentCallbackEvent intent).metadata k =
            goGet meta k := by
        refine ⟨by rw [setupIntentCE_type, htype], fun k => ?_⟩
        rw [setupIntentCE_metadata, hmeta, goMapCopy_eq_self meta hnd]
      constructor
      · exact ⟨setupIntentCallbackEvent intent,
          by rw [handleSyncSetup e h1, hraw], hcb.1, hcb.2⟩
      · intro _
        exact ⟨setupIntentCallbackEvent intent,
          by rw [handleQueueSetup e h1, hraw], hcb.1, hcb.2⟩
  · by_cases h2 : e.type ∈ paymentIntentKinds
    · unfold decodedMetadata at hd
      rw [if_neg h1, if_pos h2] at hd
      cases hraw : e.data.rawPaymentIntent with
      | error msg => rw [hraw] at hd; simp [Except.map] at hd
      | ok intent =>
        rw [hraw] at hd
        simp only [Except.map] at hd
        have hmeta : intent.metadata = meta := by
          cases hd
          rfl
        have hcb : (paymentIntentCallbackEvent e.type intent).type = e.type ∧
            ∀ k, goGet (paymentIntentCallbackEvent e.type intent).metadata k =
              goGet meta k := by
          refine ⟨paymentIntentCE_type e.type intent, fun k => ?_⟩
          rw [paymentIntentCE_metadata, hmeta, goMapCopy_eq_self meta hnd]
        constructor
        · exact ⟨paymentIntentCallbackEvent e.type intent,
            by rw [handleSyncPayment e h2, hraw], hcb.1, hcb.2⟩
        · intro _
          exact ⟨paymentIntentCallbackEvent e.type intent,
            by rw [handleQueuePayment e h2, hraw], hcb.1, hcb.2⟩
    · by_cases h3 : e.type ∈ subscriptionKinds
      · unfold decodedMetadata at hd
        rw [if_neg h1, if_neg h2, if_pos h3] at hd
        cases hraw : e.data.rawSubscription with
        | error msg => rw [hraw] at hd; simp [Except.map] at hd
        | ok sub =>
          rw [hraw] at hd
          simp only [Except.map] at hd
          have hmeta : sub.metadata = meta := by
            cases hd
            rfl
          constructor
          · refine ⟨_, by rw [handleSyncSubscription e h3, hraw], rfl,
              fun k => ?_⟩
            show goGet (goMapCopy sub.metadata) k = goGet meta k
            rw [hmeta, goMapCopy_eq_self meta hnd]
          · intro _
            refine ⟨_, by rw [handleQueueSubscription e h3, hraw], rfl,
              fun k => ?_⟩
            show goGet (goMapCopy sub.metadata) k = goGet meta k
            rw [hmeta, goMapCopy_eq_self meta hnd]
      · by_cases h4 : e.type ∈ invoiceKinds
        · unfold decodedMetadata at hd
          rw [if_neg h1, if_neg h2, if_neg h3, if_pos h4] at hd
          cases hraw : e.data.rawInvoice with
          | error msg => rw [hraw] at hd; simp [Except.map] at hd
          | ok inv =>
            rw [hraw] at hd
            simp only [Except.map] at hd
            have hmeta : inv.metadata = meta := by
              cases hd
              rfl
            constructor
            · refine ⟨_, by rw [handleSyncInvoice e h4, hraw], rfl,
                fun k => ?_⟩
              show goGet (goMapCopy inv.metadata) k = goGet meta k
              rw [hmeta, goMapCopy_eq_self meta hnd]
            · intro _
              refine ⟨_, by rw [handleQueueInvoice e h4, hraw], rfl,
                fun k => ?_⟩
              show goGet (goMapCopy inv.metadata) k = goGet meta k
              rw [hmeta, goMapCopy_eq_self meta hnd]
        · by_cases h5 : e.type ∈ refundKinds
          · unfold decodedMetadata at hd
            rw [if_neg h1, if_neg h2, if_neg h3, if_neg h4, if_pos h5] at hd
            cases hraw : e.data.rawRefund with
            | error msg => rw [hraw] at hd; simp [Except.map] at hd
            | ok refund =>
              rw [hraw] at hd
              simp only [Except.map] at hd
              have hmeta : refund.metadata = meta := by
                cases hd
                rfl
              constructor
              · refine ⟨_, by rw [handleSyncRefund e h5, hraw], rfl,
                  fun k => ?_⟩
                show goGet (goMapCopy refund.metadata) k = goGet meta k
                rw [hmeta, goMapCopy_eq_self meta hnd]
              · intro hq
                exfalso
                simp only [knownKindsQueue, List.mem_append] at hq
                rcases hq with ((hq | hq) | hq) | hq
                · exact h1 hq
                · exact h2 hq
                · exact h3 hq
                · exact h4 hq
          · unfold decodedMetadata at hd
            rw [if_neg h1, if_neg h2, if_neg h3, if_neg h4, if_neg h5] at hd
            exact absurd hd (by simp)

/-- C1 witness: the subscription-created example evaluates as the
theorem states. -/
theorem claim1_witness :
    exSubEvent.type ∈ knownKindsSync ∧
    decodedMetadata exSubEvent = .ok [("a", "1"), ("b", "2")] ∧
    (goKeys [("a", "1"), ("b", "2")]).Nodup ∧
    ((∃ cb, HandleWebhookSyncV74 (.ok exSubEvent) = (some cb, none) ∧
      cb.type = exSubEvent.type ∧
      ∀ k, goGet cb.metadata k = goGet [("a", "1"), ("b", "2")] k) ∧
    (exSubEvent.type ∈ knownKindsQueue →
      ∃ cb, HandleWebhookQueueV74 (.ok exSubEvent) = ([cb], none) ∧
        cb.type = exSubEvent.type ∧
        ∀ k, goGet cb.metadata k = goGet [("a", "1"), ("b", "2")] k)) :=
  ⟨by decide, by rfl, by decide,
    claim1_known_kind_projection exSubEvent [("a", "1"), ("b", "2")]
      (by decide) (by rfl) (by decide)⟩

theorem setupIntentCE_crossZero (intent : StripeSetupIntent) :
    paymentFamilyZero (setupIntentCallbackEvent intent) ∧
    subscriptionFamilyZero (setupIntentCallbackEvent intent) ∧
    invoiceFamilyZero (setupIntentCallbackEvent intent) ∧
    refundFamilyZero (setupIntentCallbackEvent intent) := by
  unfold setupIntentCallbackEvent paymentFamilyZero subscriptionFamilyZero
    invoiceFamilyZero refundFamilyZero
  simp

theorem paymentIntentCE_crossZero (kind : String)
    (intent : StripePaymentIntent) :
    setupFamilyZero (paymentIntentCallbackEvent kind intent) ∧
    subscriptionFamilyZero (paymentIntentCallbackEvent kind intent) ∧
    invoiceFamilyZero (paymentIntentCallbackEvent kind intent) ∧
    refundFamilyZero (paymentIntentCallbackEvent kind intent) := by
  unfold paymentIntentCallbackEvent setupFamilyZero subscriptionFamilyZero
    invoiceFamilyZero refundFamilyZero
  repeat' split
  all_goals simp

theorem paymentIntentCE_noErrorFields (kind : String)
    (intent : StripePaymentIntent) (h : intent.lastPaymentError = none) :
    (paymentIntentCallbackEvent kind intent).lastPaymentErrorCode = "" ∧
    (paymentIntentCallbackEvent kind intent).lastPaymentErrorMsg = "" ∧
    (paymentIntentCallbackEvent kind intent).lastPaymentErrorDeclineCode
      = "" ∧
    (paymentIntentCallbackEvent kind
      intent).lastPaymentErrorPaymentMethodID = "" ∧
    (paymentIntentCallbackEvent kind intent).lastPaymentErrorChargeID
      = "" := by
  unfold paymentIntentCallbackEvent
  rw [h]
  repeat' split
  all_goals simp_all

/-- C2 (amended): every `CallbackEvent` produced by either variant of
`HandleWebhook` populates at most the family selected by the `Type`
discriminant: the exclusive fields of every non-selected family are at
their zero values. (The original claim fails for the shared scalar
fields `PaymentMethodID`, `Amount`, `Status`, `CustomerID`, `Created`,
which the struct's grouping comments assign to one family but which
several branches populate.) -/
theorem claim2_family_partition (e : StripeEvent) :
    (∀ cb, (HandleWebhookSyncV74 (.ok e)).1 = some cb →
      familyPartition cb) ∧
    (∀ cb, cb ∈ (HandleWebhookQueueV74 (.ok e)).1 →
      familyPartition cb) := by
  by_cases h1 : e.type ∈ setupIntentKinds
  · constructor
    · intro cb hcb
      rw [handleSyncSetup e h1] at hcb
      cases hraw : e.data.rawSetupIntent with
      | error msg => rw [hraw] at hcb; simp at hcb
      | ok intent =>
        rw [hraw] at hcb
        simp at hcb
        subst hcb
        obtain ⟨hp, hs, hi, hr⟩ := setupIntentCE_crossZero intent
        refine ⟨fun hn => ?_, fun _ => hp, fun _ => hs, fun _ => hi,
          fun _ => hr⟩
        rw [setupIntentCE_type] at hn
        exact (hn (by simp [setupIntentKinds])).elim
    · intro cb hcb
      rw [handleQueueSetup e h1] at hcb
      cases hraw : e.data.rawSetupIntent with
      | error msg => rw [hraw] at hcb; simp at hcb
      | ok intent =>
        rw [hraw] at hcb
        simp at hcb
        subst hcb
        obtain ⟨hp, hs, hi, hr⟩ := setupIntentCE_crossZero intent
        refine ⟨fun hn => ?_, fun _ => hp, fun _ => hs, fun _ => hi,
          fun _ => hr⟩
        rw [setupIntentCE_type] at hn
        exact (hn (by simp [setupIntentKinds])).elim
  · by_cases h2 : e.type ∈ paymentIntentKinds
    · constructor
      · intro cb hcb
        rw [handleSyncPayment e h2] at hcb
        cases hraw : e.data.rawPaymentIntent with
        | error msg => rw [hraw] at hcb; simp at hcb
        | ok intent =>
          rw [hraw] at hcb
          simp at hcb
          subst hcb
          obtain ⟨hst, hs, hi, hr⟩ := paymentIntentCE_crossZero e.type intent
          refine ⟨fun _ => hst, fun hn => ?_, fun _ => hs, fun _ => hi,
            fun _ => hr⟩
          rw [paymentIntentCE_type] at hn
          exact absurd h2 hn
      · intro cb hcb
        rw [handleQueuePayment e h2] at hcb
        cases hraw : e.data.rawPaymentIntent with
        | error msg => rw [hraw] at hcb; simp at hcb
        | ok intent =>
          rw [hraw] at hcb
          simp at hcb
          subst hcb
          obtain ⟨hst, hs, hi, hr⟩ := paymentIntentCE_crossZero e.type intent
          refine ⟨fun _ => hst, fun hn => ?_, fun _ => hs, fun _ => hi,
            fun _ => hr⟩
          rw [paymentIntentCE_type] at hn
          exact absurd h2 hn
    · by_cases h3 : e.type ∈ subscriptionKinds
      · constructor
        · intro cb hcb
          rw [handleSyncSubscription e h3] at hcb
          cases hraw : e.data.rawSubscription with
          | error msg => rw [hraw] at hcb; simp at hcb
          | ok sub =>
            rw [hraw] at hcb
            simp at hcb
            subst hcb
            exact ⟨fun _ => ⟨rfl, rfl, rfl, rfl, rfl⟩,
              fun _ => ⟨rfl, rfl, rfl, rfl, rfl, rfl, rfl, rfl, rfl⟩,
              fun hn => absurd h3 hn,
              fun _ => ⟨rfl, rfl⟩,
              fun _ => ⟨rfl, rfl, rfl, rfl, rfl, rfl⟩⟩
        · intro cb hcb
          rw [handleQueueSubscription e h3] at hcb
          cases hraw : e.data.rawSubscription with
          | error msg => rw [hraw] at hcb; simp at hcb
          | ok sub =>
            rw [hraw] at hcb
            simp at hcb
            subst hcb
            exact ⟨fun _ => ⟨rfl, rfl, rfl, rfl, rfl⟩,
              fun _ => ⟨rfl, rfl, rfl, rfl, rfl, rfl, rfl, rfl, rfl⟩,
              fun hn => absurd h3 hn,
              fun _ => ⟨rfl, rfl⟩,
              fun _ => ⟨rfl, rfl, rfl, rfl, rfl, rfl⟩⟩
      · by_cases h4 : e.type ∈ invoiceKinds
        · constructor
          · intro cb hcb
            rw [handleSyncInvoice e h4] at hcb
            cases hraw : e.data.rawInvoice with
            | error msg => rw [hraw] at hcb; simp at hcb
            | ok inv =>
              rw [hraw] at hcb
              simp at hcb
              subst hcb
              exact ⟨fun _ => ⟨rfl, rfl, rfl, rfl, rfl⟩,
                fun _ => ⟨rfl, rfl, rfl, rfl, rfl, rfl, rfl, rfl, rfl⟩,
                fun _ => ⟨rfl, rfl, rfl, rfl⟩,
                fun hn => absurd h4 hn,
                fun _ => ⟨rfl, rfl, rfl, rfl, rfl, rfl⟩⟩
          · intro cb hcb
            rw [handleQueueInvoice e h4] at hcb
            cases hraw : e.data.rawInvoice with
            | error msg => rw [hraw] at hcb; simp at hcb
            | ok inv =>
              rw [hraw] at hcb
              simp at hcb
              subst hcb
              exact ⟨fun _ => ⟨rfl, rfl, rfl, rfl, rfl⟩,
                fun _ => ⟨rfl, rfl, rfl, rfl, rfl, rfl, rfl, rfl, rfl⟩,
                fun _ => ⟨rfl, rfl, rfl, rfl⟩,
                fun hn => absurd h4 hn,
                fun _ => ⟨rfl, rfl, rfl, rfl, rfl, rfl⟩⟩
        · by_cases h5 : e.type ∈ refundKinds
          · constructor
            · intro cb hcb
              rw [handleSyncRefund e h5] at hcb
              cases hraw : e.data.rawRefund with
              | error msg => rw [hraw] at hcb; simp at hcb
              | ok refund =>
                rw [hraw] at hcb
                simp only [Option.some.injEq] at hcb
                subst hcb
                exact ⟨fun _ => ⟨rfl, rfl, rfl, rfl, rfl⟩,
                  fun _ => ⟨rfl, rfl, rfl, rfl, rfl, rfl, rfl, rfl, rfl⟩,
                  fun _ => ⟨rfl, rfl, rfl, rfl⟩,
                  fun _ => ⟨rfl, rfl⟩,
                  fun hn => absurd h5 hn⟩
            · intro cb hcb
              have hq : e.type ∉ knownKindsQueue := by
                simp only [knownKindsQueue, List.mem_append, not_or]
                exact ⟨⟨⟨h1, h2⟩, h3⟩, h4⟩
              rw [handleQueueUnknown e hq] at hcb
              simp at hcb
          · have hs : e.type ∉ knownKindsSync := by
              simp only [knownKindsSync, List.mem_append, not_or]
              exact ⟨⟨⟨⟨h1, h2⟩, h3⟩, h4⟩, h5⟩
            have hq : e.type ∉ knownKindsQueue := by
              simp only [knownKindsQueue, List.mem_append, not_or]
              exact ⟨⟨⟨h1, h2⟩, h3⟩, h4⟩
            constructor
            · intro cb hcb
              rw [handleSyncUnknown e hs] at hcb
              simp at hcb
            · intro cb hcb
              rw [handleQueueUnknown e hq] at hcb
              simp at hcb

/-- C2 counterexample: the invoice-created example is projected with a
nonzero `Amount` (grouped under the PaymentIntent fields in the struct
declaration) and a nonzero `CustomerID` (grouped under the Subscription
fields), although its discriminant selects the invoice family — so
fields belonging to other families are not all at their zero values. -/
theorem claim2_counterexample :
    (HandleWebhookSyncV74 (.ok exInvoiceEvent)).2 = none ∧
    (HandleWebhookSyncV74 (.ok exInvoiceEvent)).1.map CallbackEvent.type =
      some EventInvoiceCreated ∧
    EventInvoiceCreated ∉ paymentIntentKinds ∧
    EventInvoiceCreated ∉ subscriptionKinds ∧
    (HandleWebhookSyncV74 (.ok exInvoiceEvent)).1.map CallbackEvent.amount =
      some 5 ∧
    (HandleWebhookSyncV74 (.ok
      exInvoiceEvent)).1.map CallbackEvent.customerID = some "cus_2" :=
  ⟨rfl, rfl, by decide, by decide, rfl, rfl⟩

/-- C2 witness: the amended family-partition property evaluated on the
subscription-created example. -/
theorem claim2_witness :
    (HandleWebhookSyncV74 (.ok exSubEvent)).1 = some exSubCb ∧
    familyPartition exSubCb :=
  ⟨rfl, (claim2_family_partition exSubEvent).1 exSubCb rfl⟩

/-- C3: a verified payload of an unrecognized kind makes the
synchronous-return variant fail with the unknown-event classification
(`nil` event alongside the error) and makes the queue variant send
nothing (and return no error), leaving the queue contents unchanged. -/
theorem claim3_unknown_kind (e : StripeEvent)
    (hs : e.type ∉ knownKindsSync) (hq : e.type ∉ knownKindsQueue) :
    HandleWebhookSyncV74 (.ok e) =
      (none, some (WebhookError.unknownEventType e.type)) ∧
    HandleWebhookQueueV74 (.ok e) = ([], none) :=
  ⟨handleSyncUnknown e hs, handleQueueUnknown e hq⟩

/-- C3 witness: evaluated on the unknown-kind example. -/
theorem claim3_witness :
    exUnknownEvent.type ∉ knownKindsSync ∧
    exUnknownEvent.type ∉ knownKindsQueue ∧
    (HandleWebhookSyncV74 (.ok exUnknownEvent) =
      (none, some (WebhookError.unknownEventType exUnknownEvent.type)) ∧
    HandleWebhookQueueV74 (.ok exUnknownEvent) = ([], none)) :=
  ⟨by decide, by decide,
    claim3_unknown_kind exUnknownEvent (by decide) (by decide)⟩

/-- C4: a payment-failed event whose decoded payload carries no
`LastPaymentError` object is projected successfully and all five
projected error fields are empty, in both variants. -/
theorem claim4_payment_failed_no_error (e : StripeEvent)
    (intent : StripePaymentIntent)
    (ht : e.type = EventPaymentIntentPaymentFailed)
    (hraw : e.data.rawPaymentIntent = .ok intent)
    (hnoerr : intent.lastPaymentError = none) :
    (∃ cb, HandleWebhookSyncV74 (.ok e) = (some cb, none) ∧
      cb.lastPaymentErrorCode = "" ∧ cb.lastPaymentErrorMsg = "" ∧
      cb.lastPaymentErrorDeclineCode = "" ∧
      cb.lastPaymentErrorPaymentMethodID = "" ∧
      cb.lastPaymentErrorChargeID = "") ∧
    (∃ cb, HandleWebhookQueueV74 (.ok e) = ([cb], none) ∧
      cb.lastPaymentErrorCode = "" ∧ cb.lastPaymentErrorMsg = "" ∧
      cb.lastPaymentErrorDeclineCode = "" ∧
      cb.lastPaymentErrorPaymentMethodID = "" ∧
      cb.lastPaymentErrorChargeID = "") := by
  have hm : e.type ∈ paymentIntentKinds := by
    rw [ht]; simp [paymentIntentKinds]
  obtain ⟨hc, hmsg, hdc, hpm, hch⟩ :=
    paymentIntentCE_noErrorFields e.type intent hnoerr
  constructor
  · refine ⟨paymentIntentCallbackEvent e.type intent, ?_, hc, hmsg, hdc,
      hpm, hch⟩
    rw [handleSyncPayment e hm, hraw]
  · refine ⟨paymentIntentCallbackEvent e.type intent, ?_, hc, hmsg, hdc,
      hpm, hch⟩
    rw [handleQueuePayment e hm, hraw]

/-- C4 witness: evaluated on the payment-failed example with no nested
error object. -/
theorem claim4_witness :
    exFailedEvent.type = EventPaymentIntentPaymentFailed ∧
    exFailedEvent.data.rawPaymentIntent = .ok exFailedIntent ∧
    exFailedIntent.lastPaymentError = none ∧
    ((∃ cb, HandleWebhookSyncV74 (.ok exFailedEvent) = (some cb, none) ∧
      cb.lastPaymentErrorCode = "" ∧ cb.lastPaymentErrorMsg = "" ∧
      cb.lastPaymentErrorDeclineCode = "" ∧
      cb.lastPaymentErrorPaymentMethodID = "" ∧
      cb.lastPaymentErrorChargeID = "") ∧
    (∃ cb, HandleWebhookQueueV74 (.ok exFailedEvent) = ([cb], none) ∧
      cb.lastPaymentErrorCode = "" ∧ cb.lastPaymentErrorMsg = "" ∧
      cb.lastPaymentErrorDeclineCode = "" ∧
      cb.lastPaymentErrorPaymentMethodID = "" ∧
      cb.lastPaymentErrorChargeID = "")) :=
  ⟨rfl, rfl, rfl,
    claim4_payment_failed_no_error exFailedEvent exFailedIntent rfl rfl rfl⟩

/-- C5: an invoice event whose decoded payload contains N line items is
projected to a `CallbackEvent` whose `InvoiceLines` has length exactly N
and whose entries are the per-line projections in input order, in both
variants. -/
theorem claim5_invoice_lines (e : StripeEvent) (inv : StripeInvoice)
    (ht : e.type ∈ invoiceKinds) (hraw : e.data.rawInvoice = .ok inv) :
    (∃ cb, HandleWebhookSyncV74 (.ok e) = (some cb, none) ∧
      cb.invoiceLines.length =
        (match inv.lines with
          | some lines => lines.data.length
          | none => 0) ∧
      (∀ lines, inv.lines = some lines →
        cb.invoiceLines = lines.data.map invoiceLineFromStripe)) ∧
    (∃ cb, HandleWebhookQueueV74 (.ok e) = ([cb], none) ∧
      cb.invoiceLines.length =
        (match inv.lines with
          | some lines => lines.data.length
          | none => 0) ∧
      (∀ lines, inv.lines = some lines →
        cb.invoiceLines = lines.data.map invoiceLineFromStripe)) := by
  have hlen : (invoiceLinesOf inv).length =
      (match inv.lines with
        | some lines => lines.data.length
        | none => 0) := by
    unfold invoiceLinesOf
    cases inv.lines with
    | some lines => simp
    | none => rfl
  have hord : ∀ lines, inv.lines = some lines →
      invoiceLinesOf inv = lines.data.map invoiceLineFromStripe := by
    intro lines hl
    unfold invoiceLinesOf
    rw [hl]
  constructor
  · exact ⟨_, by rw [handleSyncInvoice e ht, hraw], hlen, hord⟩
  · exact ⟨_, by rw [handleQueueInvoice e ht, hraw], hlen, hord⟩

/-- C5 witness: evaluated on the two-line invoice example. -/
theorem claim5_witness :
    exInvoiceEvent.type ∈ invoiceKinds ∧
    exInvoiceEvent.data.rawInvoice = .ok exInvoice ∧
    ((∃ cb, HandleWebhookSyncV74 (.ok exInvoiceEvent) = (some cb, none) ∧
      cb.invoiceLines.length =
        (match exInvoice.lines with
          | some lines => lines.data.length
          | none => 0) ∧
      (∀ lines, exInvoice.lines = some lines →
        cb.invoiceLines = lines.data.map invoiceLineFromStripe)) ∧
    (∃ cb, HandleWebhookQueueV74 (.ok exInvoiceEvent) = ([cb], none) ∧
      cb.invoiceLines.length =
        (match exInvoice.lines with
          | some lines => lines.data.length
          | none => 0) ∧
      (∀ lines, exInvoice.lines = some lines →
        cb.invoiceLines = lines.data.map invoiceLineFromStripe))) :=
  ⟨by decide, rfl, claim5_invoice_lines exInvoiceEvent exInvoice
    (by decide) rfl⟩

/-- C6: starting from an empty registry, after registering an adapter
with version "v74" and one with version "v82", `GetHandler "v80"`
reports not-found, `GetHandler "v74"` and `GetHandler "v82"` return
exactly the instance registered under that version, and registering a
second adapter under "v74" overwrites the prior entry (leaving "v82"
intact). -/
theorem claim6_registry (a b c : HandlerInstance)
    (ha : a.version = "v74") (hb : b.version = "v82")
    (hc : c.version = "v74") :
    GetHandler (RegisterHandler (RegisterHandler emptyRegistry a) b)
      "v80" = none ∧
    GetHandler (RegisterHandler (RegisterHandler emptyRegistry a) b)
      "v74" = some a ∧
    GetHandler (RegisterHandler (RegisterHandler emptyRegistry a) b)
      "v82" = some b ∧
    GetHandler (RegisterHandler (RegisterHandler (RegisterHandler
      emptyRegistry a) b) c) "v74" = some c ∧
    GetHandler (RegisterHandler (RegisterHandler (RegisterHandler
      emptyRegistry a) b) c) "v82" = some b := by
  unfold GetHandler RegisterHandler emptyRegistry
  rw [ha, hb, hc]
  simp [registrySet, registryGet]

/-- C6 witness: three concrete distinct instances. -/
theorem claim6_witness :
    (⟨"v74", 0⟩ : HandlerInstance).version = "v74" ∧
    (⟨"v82", 1⟩ : HandlerInstance).version = "v82" ∧
    (⟨"v74", 2⟩ : HandlerInstance).version = "v74" ∧
    (GetHandler (RegisterHandler (RegisterHandler emptyRegistry
        ⟨"v74", 0⟩) ⟨"v82", 1⟩) "v80" = none ∧
    GetHandler (RegisterHandler (RegisterHandler emptyRegistry
        ⟨"v74", 0⟩) ⟨"v82", 1⟩) "v74" = some ⟨"v74", 0⟩ ∧
    GetHandler (RegisterHandler (RegisterHandler emptyRegistry
        ⟨"v74", 0⟩) ⟨"v82", 1⟩) "v82" = some ⟨"v82", 1⟩ ∧
    GetHandler (RegisterHandler (RegisterHandler (RegisterHandler
        emptyRegistry ⟨"v74", 0⟩) ⟨"v82", 1⟩) ⟨"v74", 2⟩) "v74" =
      some ⟨"v74", 2⟩ ∧
    GetHandler (RegisterHandler (RegisterHandler (RegisterHandler
        emptyRegistry ⟨"v74", 0⟩) ⟨"v82", 1⟩) ⟨"v74", 2⟩) "v82" =
      some ⟨"v82", 1⟩) :=
  ⟨rfl, rfl, rfl, claim6_registry ⟨"v74", 0⟩ ⟨"v82", 1⟩ ⟨"v74", 2⟩
    rfl rfl rfl⟩

/-- C7: on signature-verification failure or on decode failure of the
nested event object, `HandleWebhook` fails and produces no event: the
synchronous variant returns a `nil` event alongside the error and the
queue variant sends nothing. -/
theorem claim7_failure_no_event (msg emsg : String) (e : StripeEvent) :
    (HandleWebhookSyncV74 (.error msg) =
      (none, some (WebhookError.signatureFailure msg)) ∧
     HandleWebhookQueueV74 (.error msg) =
      ([], some (WebhookError.signatureFailure msg))) ∧
    (e.type ∈ knownKindsSync → decodedMetadata e = .error emsg →
      HandleWebhookSyncV74 (.ok e) =
        (none, some (WebhookError.decodeFailure emsg))) ∧
    (e.type ∈ knownKindsQueue → decodedMetadata e = .error emsg →
      HandleWebhookQueueV74 (.ok e) =
        ([], some (WebhookError.decodeFailure emsg))) := by
  refine ⟨⟨rfl, rfl⟩, ?_, ?_⟩
  · intro hk hd
    by_cases h1 : e.type ∈ setupIntentKinds
    · unfold decodedMetadata at hd
      rw [if_pos h1] at hd
      cases hraw : e.data.rawSetupIntent with
      | error m =>
        rw [hraw] at hd
        simp only [Except.map] at hd
        injection hd with hme
        subst hme
        rw [handleSyncSetup e h1, hraw]
      | ok x => rw [hraw] at hd; simp [Except.map] at hd
    · by_cases h2 : e.type ∈ paymentIntentKinds
      · unfold decodedMetadata at hd
        rw [if_neg h1, if_pos h2] at hd
        cases hraw : e.data.rawPaymentIntent with
        | error m =>
          rw [hraw] at hd
          simp only [Except.map] at hd
          injection hd with hme
          subst hme
          rw [handleSyncPayment e h2, hraw]
        | ok x => rw [hraw] at hd; simp [Except.map] at hd
      · by_cases h3 : e.type ∈ subscriptionKinds
        · unfold decodedMetadata at hd
          rw [if_neg h1, if_neg h2, if_pos h3] at hd
          cases hraw : e.data.rawSubscription with
          | error m =>
            rw [hraw] at hd
            simp only [Except.map] at hd
            injection hd with hme
            subst hme
            rw [handleSyncSubscription e h3, hraw]
          | ok x => rw [hraw] at hd; simp [Except.map] at hd
        · by_cases h4 : e.type ∈ invoiceKinds
          · unfold decodedMetadata at hd
            rw [if_neg h1, if_neg h2, if_neg h3, if_pos h4] at hd
            cases hraw : e.data.rawInvoice with
            | error m =>
              rw [hraw] at hd
              simp only [Except.map] at hd
              injection hd with hme
              subst hme
              rw [handleSyncInvoice e h4, hraw]
            | ok x => rw [hraw] at hd; simp [Except.map] at hd
          · by_cases h5 : e.type ∈ refundKinds
            · unfold decodedMetadata at hd
              rw [if_neg h1, if_neg h2, if_neg h3, if_neg h4,
                if_pos h5] at hd
              cases hraw : e.data.rawRefund with
              | error m =>
                rw [hraw] at hd
                simp only [Except.map] at hd
                injection hd with hme
                subst hme
                rw [handleSyncRefund e h5, hraw]
              | ok x => rw [hraw] at hd; simp [Except.map] at hd
            · exfalso
              simp only [knownKindsSync, List.mem_append] at hk
              rcases hk with (((hk | hk) | hk) | hk) | hk
              · exact h1 hk
              · exact h2 hk
              · exact h3 hk
              · exact h4 hk
              · exact h5 hk
  · intro hk hd
    by_cases h1 : e.type ∈ setupIntentKinds
    · unfold decodedMetadata at hd
      rw [if_pos h1] at hd
      cases hraw : e.data.rawSetupIntent with
      | error m =>
        rw [hraw] at hd
        simp only [Except.map] at hd
        injection hd with hme
        subst hme
        rw [handleQueueSetup e h1, hraw]
      | ok x => rw [hraw] at hd; simp [Except.map] at hd
    · by_cases h2 : e.type ∈ paymentIntentKinds
      · unfold decodedMetadata at hd
        rw [if_neg h1, if_pos h2] at hd
        cases hraw : e.data.rawPaymentIntent with
        | error m =>
          rw [hraw] at hd
          simp only [Except.map] at hd
          injection hd with hme
          subst hme
          rw [handleQueuePayment e h2, hraw]
        | ok x => rw [hraw] at hd; simp [Except.map] at hd
      · by_cases h3 : e.type ∈ subscriptionKinds
        · unfold decodedMetadata at hd
          rw [if_neg h1, if_neg h2, if_pos h3] at hd
          cases hraw : e.data.rawSubscription with
          | error m =>
            rw [hraw] at hd
            simp only [Except.map] at hd
            injection hd with hme
            subst hme
            rw [handleQueueSubscription e h3, hraw]
          | ok x => rw [hraw] at hd; simp [Except.map] at hd
        · by_cases h4 : e.type ∈ invoiceKinds
          · unfold decodedMetadata at hd
            rw [if_neg h1, if_neg h2, if_neg h3, if_pos h4] at hd
            cases hraw : e.data.rawInvoice with
            | error m =>
              rw [hraw] at hd
              simp only [Except.map] at hd
              injection hd with hme
              subst hme
              rw [handleQueueInvoice e h4, hraw]
            | ok x => rw [hraw] at hd; simp [Except.map] at hd
          · exfalso
            simp only [knownKindsQueue, List.mem_append] at hk
            rcases hk with ((hk | hk) | hk) | hk
            · exact h1 hk
            · exact h2 hk
            · exact h3 hk
            · exact h4 hk

/-- C7 witness: a failed verification and a decode-failing invoice
payload evaluated through the theorem. -/
theorem claim7_witness :
    (HandleWebhookSyncV74 (.error "bad sig") =
      (none, some (WebhookError.signatureFailure "bad sig")) ∧
     HandleWebhookQueueV74 (.error "bad sig") =
      ([], some (WebhookError.signatureFailure "bad sig"))) ∧
    exDecodeFailEvent.type ∈ knownKindsSync ∧
    exDecodeFailEvent.type ∈ knownKindsQueue ∧
    decodedMetadata exDecodeFailEvent = .error "bad json" ∧
    HandleWebhookSyncV74 (.ok exDecodeFailEvent) =
      (none, some (WebhookError.decodeFailure "bad json")) ∧
    HandleWebhookQueueV74 (.ok exDecodeFailEvent) =
      ([], some (WebhookError.decodeFailure "bad json")) :=
  ⟨(claim7_failure_no_event "bad sig" "bad json" exDecodeFailEvent).1,
   by decide, by decide, by rfl,
   (claim7_failure_no_event "bad sig" "bad json" exDecodeFailEvent).2.1
     (by decide) (by rfl),
   (claim7_failure_no_event "bad sig" "bad json" exDecodeFailEvent).2.2
     (by decide) (by rfl)⟩

theorem chanSendAll_append : ∀ (es : List CallbackEvent) (c : EventChan),
    c.buf.length + es.length ≤ c.cap →
    chanSendAll c es = some { c with buf := c.buf ++ es } := by
  intro es
  induction es with
  | nil => intro c h; simp [chanSendAll]
  | cons e rest ih =>
    intro c h
    unfold chanSendAll chanSend
    rw [if_pos (by simp at h; omega)]
    show chanSendAll { c with buf := c.buf ++ [e] } rest = _
    rw [ih { c with buf := c.buf ++ [e] } (by simp at h ⊢; omega)]
    simp

/-- C8: the delivery queue of a freshly created callback handler has
fixed capacity 100; publishing 100 events completes without blocking,
a 101st publish would block while the queue is full, and completes once
one event has been drained by a consumer; the channel is never closed
along the way. -/
theorem claim8_queue_capacity (es : List CallbackEvent)
    (extra : CallbackEvent) (h : es.length = 100) :
    newCallbackHandlerChan.cap = 100 ∧
    ∃ c', chanSendAll newCallbackHandlerChan es = some c' ∧
      c'.closed = false ∧
      chanSend c' extra = none ∧
      ∀ got c'', chanRecv c' = some (got, c'') →
        (chanSend c'' extra).isSome := by
  refine ⟨rfl, { buf := es, cap := 100, closed := false }, ?_, rfl, ?_, ?_⟩
  · have hall := chanSendAll_append es newCallbackHandlerChan
      (by simp [newCallbackHandlerChan, h])
    simpa [newCallbackHandlerChan] using hall
  · unfold chanSend
    rw [if_neg (by simp [h])]
  · intro got c'' hr
    unfold chanRecv at hr
    cases es with
    | nil => simp at h
    | cons e rest =>
      simp only [Option.some.injEq, Prod.mk.injEq] at hr
      obtain ⟨-, hc⟩ := hr
      subst hc
      unfold chanSend
      rw [if_pos (by simp at h ⊢; omega)]
      simp

/-- C8 witness: 100 copies of the zero event. -/
theorem claim8_witness :
    (List.replicate 100 ({} : CallbackEvent)).length = 100 ∧
    (newCallbackHandlerChan.cap = 100 ∧
    ∃ c', chanSendAll newCallbackHandlerChan
        (List.replicate 100 ({} : CallbackEvent)) = some c' ∧
      c'.closed = false ∧
      chanSend c' {} = none ∧
      ∀ got c'', chanRecv c' = some (got, c'') →
        (chanSend c'' {}).isSome) :=
  ⟨rfl, claim8_queue_capacity (List.replicate 100 {}) {} rfl⟩

/-- C9: in all five subscription-snapshot projection sites
(v74 create/list/update/cancel and v76 cancel) and in the
subscription-event webhook projection of both variants, the
`CurrentPeriodEnd` field is copied from the vendor payload's `CancelAt`
field. -/
theorem claim9_period_end_from_cancel_at (s : StripeSubscription)
    (e : StripeEvent) (sub : StripeSubscription)
    (ht : e.type ∈ subscriptionKinds)
    (hraw : e.data.rawSubscription = .ok sub) :
    (createSubscriptionResultV74 s).currentPeriodEnd = s.cancelAt ∧
    (listSubscriptionsResultV74 s).currentPeriodEnd = s.cancelAt ∧
    (updateSubscriptionResultV74 s).currentPeriodEnd = s.cancelAt ∧
    (cancelSubscriptionResultV74 s).currentPeriodEnd = s.cancelAt ∧
    (cancelSubscriptionResultV76 s).currentPeriodEnd = s.cancelAt ∧
    (∃ cb, HandleWebhookSyncV74 (.ok e) = (some cb, none) ∧
      cb.currentPeriodEnd = sub.cancelAt) ∧
    (∃ cb, HandleWebhookQueueV74 (.ok e) = ([cb], none) ∧
      cb.currentPeriodEnd = sub.cancelAt) :=
  ⟨rfl, rfl, rfl, rfl, rfl,
    ⟨_, by rw [handleSyncSubscription e ht, hraw], rfl⟩,
    ⟨_, by rw [handleQueueSubscription e ht, hraw], rfl⟩⟩

/-- C9 witness: the subscription example, whose vendor `CancelAt` (7)
differs from the vendor's own `CurrentPeriodEnd` (99). -/
theorem claim9_witness :
    exSub.cancelAt = 7 ∧ exSub.currentPeriodEnd = 99 ∧
    exSubEvent.type ∈ subscriptionKinds ∧
    exSubEvent.data.rawSubscription = .ok exSub ∧
    ((createSubscriptionResultV74 exSub).currentPeriodEnd =
        exSub.cancelAt ∧
    (listSubscriptionsResultV74 exSub).currentPeriodEnd =
        exSub.cancelAt ∧
    (updateSubscriptionResultV74 exSub).currentPeriodEnd =
        exSub.cancelAt ∧
    (cancelSubscriptionResultV74 exSub).currentPeriodEnd =
        exSub.cancelAt ∧
    (cancelSubscriptionResultV76 exSub).currentPeriodEnd =
        exSub.cancelAt ∧
    (∃ cb, HandleWebhookSyncV74 (.ok exSubEvent) = (some cb, none) ∧
      cb.currentPeriodEnd = exSub.cancelAt) ∧
    (∃ cb, HandleWebhookQueueV74 (.ok exSubEvent) = ([cb], none) ∧
      cb.currentPeriodEnd = exSub.cancelAt)) :=
  ⟨rfl, rfl, by decide, rfl,
    claim9_period_end_from_cancel_at exSub exSubEvent exSub
      (by decide) rfl⟩

/-- C10: every `GetPaymentMethods` implementation builds its vendor
list request with the payment-method type filter fixed to the string
"card" (and the requested customer), for every customer ID. -/
theorem claim10_card_filter (customerID : String) :
    (getPaymentMethodsParamsV74 customerID).type = "card" ∧
    (getPaymentMethodsParamsV76 customerID).type = "card" ∧
    (getPaymentMethodsParamsV80 customerID).type = "card" ∧
    (getPaymentMethodsParamsV74 customerID).customer = customerID ∧
    (getPaymentMethodsParamsV76 customerID).customer = customerID ∧
    (getPaymentMethodsParamsV80 customerID).customer = customerID :=
  ⟨rfl, rfl, rfl, rfl, rfl, rfl⟩
